import Mathlib

/-!
Shallow embedding of the Afritraffic traffic-exchange server
(`src/unnamed/part_000`, the session-based server, which supersedes the
older `server.ts` / `src/unnamed/part_001`), together with a model of the
earnings ledger declared in `src/mysql_schema.sql`.

Conventions of the embedding:
- All timestamps are integers in milliseconds since the epoch (the source
  mixes JavaScript `Date.now()` milliseconds with SQLite second-resolution
  datetimes; every comparison in the source is a plain order comparison,
  which is preserved exactly by the integer model).
- SQLite REAL point amounts are modelled as rationals.
- A database is the pair of the `users` and `views` tables, each a list of
  rows in insertion order; SQLite `.get` on a query returns the first
  matching row, modelled by `List.find?`.
- Fallible or crashing executions are modelled explicitly: the source runs
  its two credit statements with no enclosing transaction, so a crash
  between them is modelled by a function returning the intermediate state.
-/

namespace Afritraffic

/-- A row of the `views` table (`src/unnamed/part_000`, CREATE TABLE views). -/
structure ViewRow where
  viewer_id : Nat
  site_id : Nat
  points_earned : Option ℚ
  ip_address : String
  user_agent : String
  session_id : String
  start_time : Int
  is_valid : Nat
  fraud_reason : Option String
  viewed_at : Int
deriving DecidableEq

/-- A row of the `users` table (`src/unnamed/part_000`, CREATE TABLE users);
only the columns the modelled endpoints touch are kept. -/
structure UserRow where
  id : Nat
  username : String
  email : String
  password : String
  points : ℚ
  referral_code : String
  referred_by : Option Nat
  fraud_flags : Nat
  last_earning_at : Option Int
deriving DecidableEq

/-- The mutable store: the two tables the modelled endpoints read and write. -/
structure DB where
  users : List UserRow
  views : List ViewRow
deriving DecidableEq

/-- An authenticated HTTP request to `POST /api/view-complete`: the session
user id, the request body fields, the request IP and the headers. -/
structure Request where
  userId : Nat
  sessionId : String
  siteId : Nat
  ip : String
  headers : List (String × String)
  userAgent : Option String
deriving DecidableEq

/-- The header names scanned by `isProxy` (`src/unnamed/part_000:135`). -/
def proxyHeaderNames : List String :=
  ["x-forwarded-for", "x-real-ip", "via", "forwarded", "x-forwarded-proto",
    "proxy-connection"]

/-- Whether a header with the given name is present on the request. -/
def hasHeader (req : Request) (name : String) : Bool :=
  req.headers.any (fun p => p.1 == name)

/-- JavaScript `toLowerCase` on the character sequence of a string,
modelled per character; it agrees with the source on the ASCII tokens the
proxy check scans for. -/
def lowerAscii (s : String) : List Char :=
  s.data.map Char.toLower

/-- Substring test: the characters of `pat` occur contiguously in `ua`. -/
def containsToken (ua : List Char) (pat : String) : Bool :=
  decide (pat.data <:+: ua)

/-- `isProxy` (`src/unnamed/part_000:134`): any of the six forwarding
headers is present, or the lower-cased user agent contains one of the
substrings `proxy`, `vpn`, `tor`. -/
def isProxy (req : Request) : Bool :=
  proxyHeaderNames.any (fun h => hasHeader req h)
    || (let ua := lowerAscii (req.userAgent.getD "")
        containsToken ua "proxy" || containsToken ua "vpn"
          || containsToken ua "tor")

/-- `SELECT SUM(points_earned) FROM views WHERE viewer_id = ? AND
viewed_at >= ?` with the start of the current UTC day
(`src/unnamed/part_000:365`); SQL SUM skips NULLs and the source coalesces
an empty sum to 0. -/
def dailyPointsTotal (db : DB) (userId : Nat) (dayStart : Int) : ℚ :=
  ((db.views.filter
      (fun v => v.viewer_id == userId && decide (dayStart ≤ v.viewed_at))).map
    (fun v => v.points_earned.getD 0)).sum

/-- `SELECT id FROM views WHERE ip_address = ? AND viewed_at >
datetime(now, -10 minutes) AND is_valid = 1` (`src/unnamed/part_000:371`). -/
def recentIpViewExists (db : DB) (ip : String) (now : Int) : Bool :=
  db.views.any (fun v =>
    v.ip_address == ip && decide (now - 600000 < v.viewed_at)
      && v.is_valid == 1)

/-- `SELECT * FROM views WHERE session_id = ? AND viewer_id = ?`
(`src/unnamed/part_000:382`). -/
def findSession (db : DB) (sessionId : String) (userId : Nat) :
    Option ViewRow :=
  db.views.find? (fun v => v.session_id == sessionId && v.viewer_id == userId)

/-- `SELECT ... FROM users WHERE id = ?`. -/
def findUser (db : DB) (userId : Nat) : Option UserRow :=
  db.users.find? (fun u => u.id == userId)

/-- `UPDATE users SET fraud_flags = fraud_flags + 1 WHERE id = ?`
(`src/unnamed/part_000:359`). -/
def bumpFraudFlags (db : DB) (userId : Nat) : DB :=
  { db with users := db.users.map (fun u =>
      if u.id == userId then { u with fraud_flags := u.fraud_flags + 1 }
      else u) }

/-- `UPDATE views SET fraud_reason = "Duration too short" WHERE
session_id = ?` (`src/unnamed/part_000:392`). -/
def setFraudReason (db : DB) (sessionId : String) : DB :=
  { db with views := db.views.map (fun v =>
      if v.session_id == sessionId then
        { v with fraud_reason := some "Duration too short" }
      else v) }

/-- `UPDATE views SET points_earned = ?, is_valid = 1, viewed_at =
CURRENT_TIMESTAMP WHERE session_id = ?` (`src/unnamed/part_000:403`). -/
def markSessionValid (db : DB) (sessionId : String) (points : ℚ)
    (now : Int) : DB :=
  { db with views := db.views.map (fun v =>
      if v.session_id == sessionId then
        { v with points_earned := some points, is_valid := 1,
                 viewed_at := now }
      else v) }

/-- `UPDATE users SET points = points + ?, last_earning_at =
CURRENT_TIMESTAMP WHERE id = ?` (`src/unnamed/part_000:409`). -/
def creditUserPoints (db : DB) (userId : Nat) (points : ℚ) (now : Int) :
    DB :=
  { db with users := db.users.map (fun u =>
      if u.id == userId then
        { u with points := u.points + points, last_earning_at := some now }
      else u) }

/-- Outcome of `POST /api/view-complete`, one constructor per response of
the handler. -/
inductive CompleteResult where
  | success (pointsEarned : ℚ)
  | errProxy
  | errDailyCap
  | errCooldown
  | errInvalidSession
  | errDurationTooShort
  | errAlreadyCompleted
deriving DecidableEq

/-- The daily earning cap (`src/unnamed/part_000:366`). -/
def dailyCapPoints : ℚ := 100000

/-- The minimum dwell time in milliseconds: the source compares
`(now - startTime) / 1000 < 20`, equivalent over the reals to
`now - startTime < 20000`. -/
def minDwellMs : Int := 20000

/-- The fixed per-view award, `const points = 1`
(`src/unnamed/part_000:402`). -/
def pointsPerView : ℚ := 1

/-- The handler of `POST /api/view-complete` (`src/unnamed/part_000:349`)
run to completion without storage failures. `now` is the completion
instant, `dayStart` the start of the current UTC day used by the daily-cap
query. Returns the response together with the post state. -/
def completeView (db : DB) (req : Request) (now dayStart : Int) :
    CompleteResult × DB :=
  if isProxy req then
    (CompleteResult.errProxy, bumpFraudFlags db req.userId)
  else if dailyCapPoints ≤ dailyPointsTotal db req.userId dayStart then
    (CompleteResult.errDailyCap, db)
  else if recentIpViewExists db req.ip now then
    (CompleteResult.errCooldown, db)
  else
    match findSession db req.sessionId req.userId with
    | none => (CompleteResult.errInvalidSession, db)
    | some v =>
      if now - v.start_time < minDwellMs then
        (CompleteResult.errDurationTooShort, setFraudReason db req.sessionId)
      else if v.is_valid = 1 then
        (CompleteResult.errAlreadyCompleted, db)
      else
        (CompleteResult.success pointsPerView,
          creditUserPoints (markSessionValid db req.sessionId pointsPerView now)
            req.userId pointsPerView now)

/-- The state left behind when execution of the credit step of
`POST /api/view-complete` halts between its two statements: the source
runs the `views` UPDATE and the `users` UPDATE as two separate statements
with no enclosing transaction (`src/unnamed/part_000:401` to `414`), so a
storage failure or crash after the first statement leaves exactly the
first applied. Returns `some` of that intermediate state when the request
reaches the credit step, `none` when some check rejects first. -/
def completeViewCrashMidCredit (db : DB) (req : Request)
    (now dayStart : Int) : Option DB :=
  if isProxy req then none
  else if dailyCapPoints ≤ dailyPointsTotal db req.userId dayStart then none
  else if recentIpViewExists db req.ip now then none
  else
    match findSession db req.sessionId req.userId with
    | none => none
    | some v =>
      if now - v.start_time < minDwellMs then none
      else if v.is_valid = 1 then none
      else some (markSessionValid db req.sessionId pointsPerView now)

/-- Body of `POST /api/register` (`src/unnamed/part_000:181`): the request
fields together with the fresh referral code the handler draws for the
new user (`Math.random()...`, passed in as data). The password stands for
its bcrypt hash, which the model treats as opaque. -/
structure RegisterInput where
  username : String
  email : String
  password : String
  referralCode : Option String
  newReferralCode : String
deriving DecidableEq

/-- Outcome of `POST /api/register`. -/
inductive RegisterResult where
  | ok (userId : Nat)
  | errMissingFields
  | errUniqueConstraint
deriving DecidableEq

/-- `SELECT id FROM users WHERE referral_code = ?` guarded by the JS
truthiness test `if (referralCode)`, under which the empty string is
falsy (`src/unnamed/part_000:193`). -/
def lookupReferrer (db : DB) (code : Option String) : Option Nat :=
  match code with
  | none => none
  | some c => if c = "" then none
      else (db.users.find? (fun u => u.referral_code == c)).map (fun u => u.id)

/-- SQLite AUTOINCREMENT: ids are assigned in increasing order; the model
assigns one more than the largest id present. -/
def freshUserId (db : DB) : Nat :=
  db.users.foldr (fun u m => max u.id m) 0 + 1

/-- The referral bonus, 50 points to each party (`src/unnamed/part_000:203`
and `207`). -/
def referralBonus : ℚ := 50

/-- The handler of `POST /api/register` (`src/unnamed/part_000:181`) run to
completion: field presence check (JS truthiness, empty strings are
missing), referrer lookup, INSERT of the new user guarded by the UNIQUE
constraints on username, email and referral code, then a separate UPDATE
crediting the referrer when one was found. -/
def register (db : DB) (inp : RegisterInput) : RegisterResult × DB :=
  if inp.username = "" ∨ inp.email = "" ∨ inp.password = "" then
    (RegisterResult.errMissingFields, db)
  else
    let referredById := lookupReferrer db inp.referralCode
    if db.users.any (fun u =>
        u.username == inp.username || u.email == inp.email
          || u.referral_code == inp.newReferralCode) then
      (RegisterResult.errUniqueConstraint, db)
    else
      let uid := freshUserId db
      let newUser : UserRow :=
        { id := uid, username := inp.username, email := inp.email,
          password := inp.password,
          points := if referredById.isSome then referralBonus else 0,
          referral_code := inp.newReferralCode,
          referred_by := referredById, fraud_flags := 0,
          last_earning_at := none }
      let db1 : DB := { db with users := db.users ++ [newUser] }
      match referredById with
      | some rid =>
        (RegisterResult.ok uid,
          { db1 with users := db1.users.map (fun u =>
              if u.id == rid then { u with points := u.points + referralBonus }
              else u) })
      | none => (RegisterResult.ok uid, db1)

/-- The state left behind when execution of `POST /api/register` halts
between the INSERT of the referred new user and the UPDATE crediting the
referrer: the two statements run with no enclosing transaction
(`src/unnamed/part_000:200` to `208`). Returns `some` of that state when
the INSERT succeeds with a referrer found, else `none`. -/
def registerCrashAfterInsert (db : DB) (inp : RegisterInput) : Option DB :=
  if inp.username = "" ∨ inp.email = "" ∨ inp.password = "" then none
  else
    let referredById := lookupReferrer db inp.referralCode
    if db.users.any (fun u =>
        u.username == inp.username || u.email == inp.email
          || u.referral_code == inp.newReferralCode) then none
    else
      match referredById with
      | some _ =>
        let uid := freshUserId db
        let newUser : UserRow :=
          { id := uid, username := inp.username, email := inp.email,
            password := inp.password, points := referralBonus,
            referral_code := inp.newReferralCode,
            referred_by := referredById, fraud_flags := 0,
            last_earning_at := none }
        some { db with users := db.users ++ [newUser] }
      | none => none

/-! ### Earnings ledger and unlock scheduler

The repository declares the `earnings_ledger` table with its `status`
enum and `unlock_at` column (`src/mysql_schema.sql:78` to `89`), but no
source file implements the `lockEarnings` primitive or the Unlock
Scheduler; they are modelled from the spec below. -/

/-- The status enum of `earnings_ledger` (`src/mysql_schema.sql:82`). -/
inductive EarnStatus where
  | locked
  | available
  | withdrawn
  | cancelled
deriving DecidableEq

/-- A row of `earnings_ledger` (`src/mysql_schema.sql:78`). -/
structure EarningsLedgerEntry where
  id : Nat
  user_id : Nat
  amount : ℚ
  status : EarnStatus
  source : String
  unlock_at : Int
  created_at : Int
deriving DecidableEq

/-- The 15-day holding period in milliseconds. -/
def holdingPeriodMs : Int := 15 * 24 * 60 * 60 * 1000

/-- Modelled from the spec: the repository declares the `earnings_ledger`
table but contains no code implementing the primitive; per the spec,
`lockEarnings(user, amount, source)` creates one entry with
`unlock_at = now + 15 days` and status `locked`. Returns the created
entry and the extended ledger. -/
def lockEarnings (entries : List EarningsLedgerEntry) (user : Nat)
    (amount : ℚ) (source : String) (now : Int) :
    EarningsLedgerEntry × List EarningsLedgerEntry :=
  let e : EarningsLedgerEntry :=
    { id := entries.length + 1, user_id := user, amount := amount,
      status := EarnStatus.locked, source := source,
      unlock_at := now + holdingPeriodMs, created_at := now }
  (e, entries ++ [e])

/-- Modelled from the spec: one entry as processed by a run of the Unlock
Scheduler at instant `now` — an entry with status `locked` whose
`unlock_at` has passed transitions to `available`; every other entry is
untouched. -/
def sweepEntry (now : Int) (e : EarningsLedgerEntry) : EarningsLedgerEntry :=
  if e.status = EarnStatus.locked ∧ e.unlock_at ≤ now then
    { e with status := EarnStatus.available }
  else e

/-- Modelled from the spec: a full sweep of the Unlock Scheduler at
instant `now` over the ledger. -/
def unlockSweep (now : Int) (entries : List EarningsLedgerEntry) :
    List EarningsLedgerEntry :=
  entries.map (sweepEntry now)

/-- Repeated invocation of `POST /api/view-complete` with one fixed
request: runs the handler `n` times, threading the state. -/
def iterateCompleteDB (req : Request) (now dayStart : Int) :
    Nat → DB → DB
  | 0, db => db
  | n + 1, db => iterateCompleteDB req now dayStart n
      ((completeView db req now dayStart).2)

/-! ### Concrete states used by the closed theorems -/

/-- A user with a 7-point balance and no fraud flags. -/
def userA : UserRow :=
  { id := 1, username := "alice", email := "alice@example.com",
    password := "h1", points := 7, referral_code := "AAAAAA",
    referred_by := none, fraud_flags := 0, last_earning_at := none }

/-- A pending view session, token `s1`, started at t = 0 ms. -/
def pendingView : ViewRow :=
  { viewer_id := 1, site_id := 5, points_earned := none,
    ip_address := "203.0.113.5", user_agent := "Mozilla",
    session_id := "s1", start_time := 0, is_valid := 0,
    fraud_reason := none, viewed_at := 0 }

/-- One user, one pending session. -/
def dbA : DB := { users := [userA], views := [pendingView] }

/-- A clean completion request for token `s1` from user 1: no forwarding
headers, unremarkable user agent, an IP with no recorded views. -/
def reqA : Request :=
  { userId := 1, sessionId := "s1", siteId := 5, ip := "198.51.100.7",
    headers := [], userAgent := some "Mozilla Firefox" }

/-- The same request issued through a proxy: an `x-forwarded-for` header
is present. -/
def reqProxy : Request :=
  { userId := 1, sessionId := "s1", siteId := 5, ip := "198.51.100.7",
    headers := [("x-forwarded-for", "9.9.9.9")],
    userAgent := some "Mozilla Firefox" }

/-- The session `s1` already completed as valid at t = 1000 ms. -/
def validView : ViewRow :=
  { viewer_id := 1, site_id := 5, points_earned := some 1,
    ip_address := "203.0.113.5", user_agent := "Mozilla",
    session_id := "s1", start_time := 0, is_valid := 1,
    fraud_reason := none, viewed_at := 1000 }

/-- One user, one already-valid session. -/
def dbValid : DB := { users := [userA], views := [validView] }

/-- A view completed as valid on the same IP as `reqA`, recently. -/
def recentValidView : ViewRow :=
  { viewer_id := 2, site_id := 5, points_earned := some 1,
    ip_address := "198.51.100.7", user_agent := "Mozilla",
    session_id := "s9", start_time := 0, is_valid := 1,
    fraud_reason := none, viewed_at := 650000 }

/-- One user, one recent valid view occupying the cooldown window of the
IP of `reqA`. -/
def dbCooldown : DB := { users := [userA], views := [recentValidView] }

/-- A valid view credited with 99999.5 points earlier today. -/
def bigView : ViewRow :=
  { viewer_id := 1, site_id := 5, points_earned := some (mkRat 199999 2),
    ip_address := "10.0.0.1", user_agent := "Mozilla",
    session_id := "s0", start_time := 0, is_valid := 1,
    fraud_reason := none, viewed_at := 1000 }

/-- A pending session, token `s6`, for the daily-cap scenario. -/
def pendView6 : ViewRow :=
  { viewer_id := 1, site_id := 5, points_earned := none,
    ip_address := "10.0.0.2", user_agent := "Mozilla",
    session_id := "s6", start_time := 0, is_valid := 0,
    fraud_reason := none, viewed_at := 500 }

/-- Daily credited total 99999.5 with one more pending session. -/
def dbCap : DB := { users := [userA], views := [bigView, pendView6] }

/-- Completion request for token `s6`. -/
def reqCap : Request :=
  { userId := 1, sessionId := "s6", siteId := 5, ip := "198.51.100.7",
    headers := [], userAgent := some "Mozilla Firefox" }

/-- A registered user holding referral code `ABC123` and zero points. -/
def refUser : UserRow :=
  { id := 1, username := "ref", email := "ref@example.com",
    password := "h", points := 0, referral_code := "ABC123",
    referred_by := none, fraud_flags := 0, last_earning_at := none }

/-- The store before the referred registration. -/
def dbRef : DB := { users := [refUser], views := [] }

/-- A registration carrying the valid referral code `ABC123`. -/
def inpRef : RegisterInput :=
  { username := "newbie", email := "newbie@example.com", password := "pw",
    referralCode := some "ABC123", newReferralCode := "XYZ789" }

/-- A locked earnings entry due for unlocking at t = 100. -/
def lockedEntry : EarningsLedgerEntry :=
  { id := 1, user_id := 1, amount := 5, status := EarnStatus.locked,
    source := "bonus", unlock_at := 100, created_at := 0 }

/-! ### Branch-computation lemmas for the view-complete handler -/

lemma completeView_proxy (db : DB) (req : Request) (now dayStart : Int)
    (h : isProxy req = true) :
    completeView db req now dayStart =
      (CompleteResult.errProxy, bumpFraudFlags db req.userId) := by
  simp [completeView, h]

lemma completeView_dailyCap (db : DB) (req : Request) (now dayStart : Int)
    (h1 : isProxy req = false)
    (h2 : dailyCapPoints ≤ dailyPointsTotal db req.userId dayStart) :
    completeView db req now dayStart = (CompleteResult.errDailyCap, db) := by
  simp [completeView, h1, h2]

lemma completeView_cooldown (db : DB) (req : Request) (now dayStart : Int)
    (h1 : isProxy req = false)
    (h2 : dailyPointsTotal db req.userId dayStart < dailyCapPoints)
    (h3 : recentIpViewExists db req.ip now = true) :
    completeView db req now dayStart = (CompleteResult.errCooldown, db) := by
  simp [completeView, h1, not_le.mpr h2, h3]

lemma completeView_invalidSession (db : DB) (req : Request)
    (now dayStart : Int)
    (h1 : isProxy req = false)
    (h2 : dailyPointsTotal db req.userId dayStart < dailyCapPoints)
    (h3 : recentIpViewExists db req.ip now = false)
    (h4 : findSession db req.sessionId req.userId = none) :
    completeView db req now dayStart =
      (CompleteResult.errInvalidSession, db) := by
  simp [completeView, h1, not_le.mpr h2, h3, h4]

lemma completeView_shortDuration (db : DB) (req : Request)
    (now dayStart : Int) (v : ViewRow)
    (h1 : isProxy req = false)
    (h2 : dailyPointsTotal db req.userId dayStart < dailyCapPoints)
    (h3 : recentIpViewExists db req.ip now = false)
    (h4 : findSession db req.sessionId req.userId = some v)
    (h5 : now - v.start_time < minDwellMs) :
    completeView db req now dayStart =
      (CompleteResult.errDurationTooShort, setFraudReason db req.sessionId) := by
  simp [completeView, h1, not_le.mpr h2, h3, h4, h5]

lemma completeView_alreadyCompleted (db : DB) (req : Request)
    (now dayStart : Int) (v : ViewRow)
    (h1 : isProxy req = false)
    (h2 : dailyPointsTotal db req.userId dayStart < dailyCapPoints)
    (h3 : recentIpViewExists db req.ip now = false)
    (h4 : findSession db req.sessionId req.userId = some v)
    (h5 : minDwellMs ≤ now - v.start_time)
    (h6 : v.is_valid = 1) :
    completeView db req now dayStart =
      (CompleteResult.errAlreadyCompleted, db) := by
  simp [completeView, h1, not_le.mpr h2, h3, h4, not_lt.mpr h5, h6]

lemma completeView_credit (db : DB) (req : Request) (now dayStart : Int)
    (v : ViewRow)
    (h1 : isProxy req = false)
    (h2 : dailyPointsTotal db req.userId dayStart < dailyCapPoints)
    (h3 : recentIpViewExists db req.ip now = false)
    (h4 : findSession db req.sessionId req.userId = some v)
    (h5 : minDwellMs ≤ now - v.start_time)
    (h6 : v.is_valid ≠ 1) :
    completeView db req now dayStart =
      (CompleteResult.success pointsPerView,
        creditUserPoints (markSessionValid db req.sessionId pointsPerView now)
          req.userId pointsPerView now) := by
  simp [completeView, h1, not_le.mpr h2, h3, h4, not_lt.mpr h5, h6]

/-- Unfolding of the IP-cooldown query into an existential over the
`views` table. -/
lemma recentIpViewExists_iff (db : DB) (ip : String) (now : Int) :
    recentIpViewExists db ip now = true ↔
      ∃ v ∈ db.views, v.ip_address = ip ∧ now - 600000 < v.viewed_at ∧
        v.is_valid = 1 := by
  simp [recentIpViewExists, List.any_eq_true, Bool.and_eq_true,
    beq_iff_eq, decide_eq_true_eq, and_assoc]

/-- The fraud-flag UPDATE commutes with looking the user up. -/
lemma findUser_bumpFraudFlags (db : DB) (uid : Nat) :
    findUser (bumpFraudFlags db uid) uid =
      (findUser db uid).map
        (fun u => { u with fraud_flags := u.fraud_flags + 1 }) := by
  unfold findUser bumpFraudFlags
  rw [List.find?_map]
  have hp : ((fun u : UserRow => u.id == uid) ∘
      (fun u => if u.id == uid then
        { u with fraud_flags := u.fraud_flags + 1 } else u)) =
      (fun u : UserRow => u.id == uid) := by
    funext u
    by_cases h : u.id = uid <;> simp [h]
  rw [hp]
  cases hf : db.users.find? (fun u => u.id == uid) with
  | none => rfl
  | some a =>
    have ha := List.find?_some hf
    simp [Option.map, ha]

/-- Inversion of the handler result for the two rate-limit rejections:
the daily-cap error is returned exactly when the proxy check passes and
the daily total has reached the cap, and the cooldown error exactly when
additionally the daily total is below the cap and the cooldown query
finds a row. -/
lemma completeView_fst_spec (db : DB) (req : Request) (now dayStart : Int) :
    ((completeView db req now dayStart).1 = CompleteResult.errDailyCap ↔
      isProxy req = false ∧
        dailyCapPoints ≤ dailyPointsTotal db req.userId dayStart) ∧
    ((completeView db req now dayStart).1 = CompleteResult.errCooldown ↔
      isProxy req = false ∧
        dailyPointsTotal db req.userId dayStart < dailyCapPoints ∧
        recentIpViewExists db req.ip now = true) := by
  cases h1 : isProxy req with
  | true =>
    rw [completeView_proxy db req now dayStart h1]
    exact ⟨⟨fun h => CompleteResult.noConfusion h,
        fun h => Bool.noConfusion h.1⟩,
      ⟨fun h => CompleteResult.noConfusion h,
        fun h => Bool.noConfusion h.1⟩⟩
  | false =>
    by_cases h2 : dailyCapPoints ≤ dailyPointsTotal db req.userId dayStart
    · rw [completeView_dailyCap db req now dayStart h1 h2]
      exact ⟨⟨fun _ => ⟨rfl, h2⟩, fun _ => rfl⟩,
        ⟨fun h => CompleteResult.noConfusion h,
          fun h => absurd h.2.1 (not_lt.mpr h2)⟩⟩
    · have h2' := not_le.mp h2
      cases h3 : recentIpViewExists db req.ip now with
      | true =>
        rw [completeView_cooldown db req now dayStart h1 h2' h3]
        exact ⟨⟨fun h => CompleteResult.noConfusion h,
            fun h => absurd h.2 (not_le.mpr h2')⟩,
          ⟨fun _ => ⟨rfl, h2', rfl⟩, fun _ => rfl⟩⟩
      | false =>
        have hnot : ∀ r : CompleteResult × DB,
            r.1 ≠ CompleteResult.errDailyCap → r.1 ≠ CompleteResult.errCooldown →
            (r.1 = CompleteResult.errDailyCap ↔
              (false : Bool) = false ∧
                dailyCapPoints ≤ dailyPointsTotal db req.userId dayStart) ∧
            (r.1 = CompleteResult.errCooldown ↔
              (false : Bool) = false ∧
                dailyPointsTotal db req.userId dayStart < dailyCapPoints ∧
                (false : Bool) = true) := by
          intro r hd hc
          exact ⟨⟨fun h => absurd h hd, fun h => absurd h.2 (not_le.mpr h2')⟩,
            ⟨fun h => absurd h hc,
              fun h => Bool.noConfusion h.2.2⟩⟩
        cases hfs : findSession db req.sessionId req.userId with
        | none =>
          rw [completeView_invalidSession db req now dayStart h1 h2' h3 hfs]
          exact hnot _ (fun h => CompleteResult.noConfusion h)
            (fun h => CompleteResult.noConfusion h)
        | some v =>
          by_cases h5 : now - v.start_time < minDwellMs
          · rw [completeView_shortDuration db req now dayStart v h1 h2' h3 hfs h5]
            exact hnot _ (fun h => CompleteResult.noConfusion h)
              (fun h => CompleteResult.noConfusion h)
          · have h5' := not_lt.mp h5
            by_cases h6 : v.is_valid = 1
            · rw [completeView_alreadyCompleted db req now dayStart v h1 h2' h3
                hfs h5' h6]
              exact hnot _ (fun h => CompleteResult.noConfusion h)
                (fun h => CompleteResult.noConfusion h)
            · rw [completeView_credit db req now dayStart v h1 h2' h3 hfs h5' h6]
              exact hnot _ (fun h => CompleteResult.noConfusion h)
                (fun h => CompleteResult.noConfusion h)

/-- A due locked entry transitions to available. -/
lemma sweepEntry_due (now : Int) (e : EarningsLedgerEntry)
    (h1 : e.status = EarnStatus.locked) (h2 : e.unlock_at ≤ now) :
    sweepEntry now e = { e with status := EarnStatus.available } := by
  unfold sweepEntry
  exact if_pos ⟨h1, h2⟩

/-- An entry that is not both locked and due is untouched by a sweep. -/
lemma sweepEntry_unchanged (now : Int) (e : EarningsLedgerEntry)
    (h : ¬(e.status = EarnStatus.locked ∧ e.unlock_at ≤ now)) :
    sweepEntry now e = e := by
  unfold sweepEntry
  exact if_neg h

/-- Sweeping never changes the unlock timestamp of an entry. -/
lemma sweepEntry_unlock_at (now : Int) (e : EarningsLedgerEntry) :
    (sweepEntry now e).unlock_at = e.unlock_at := by
  unfold sweepEntry
  split <;> rfl

/-- Sweeping one entry twice at the same instant equals sweeping it once. -/
lemma sweepEntry_idem (now : Int) (e : EarningsLedgerEntry) :
    sweepEntry now (sweepEntry now e) = sweepEntry now e := by
  by_cases h : e.status = EarnStatus.locked ∧ e.unlock_at ≤ now
  · rw [sweepEntry_due now e h.1 h.2]
    exact sweepEntry_unchanged now _ (fun hc => EarnStatus.noConfusion hc.1)
  · rw [sweepEntry_unchanged now e h, sweepEntry_unchanged now e h]

/-- Under a proxied request, n repetitions of the handler raise the
fraud-flag counter of the requesting user by n. -/
lemma iterate_proxy_fraud_flags (req : Request) (now dayStart : Int)
    (h : isProxy req = true) :
    ∀ (n : Nat) (db : DB) (u : UserRow), findUser db req.userId = some u →
      findUser (iterateCompleteDB req now dayStart n db) req.userId =
        some { u with fraud_flags := u.fraud_flags + n } := by
  intro n
  induction n with
  | zero =>
    intro db u hu
    rw [iterateCompleteDB, hu]
    cases u
    rfl
  | succ n ih =>
    intro db u hu
    have hstep : (completeView db req now dayStart).2 =
        bumpFraudFlags db req.userId := by
      rw [completeView_proxy db req now dayStart h]
    have h1 : findUser (bumpFraudFlags db req.userId) req.userId =
        some { u with fraud_flags := u.fraud_flags + 1 } := by
      rw [findUser_bumpFraudFlags, hu]
      rfl
    have h2 := ih (bumpFraudFlags db req.userId) _ h1
    rw [show iterateCompleteDB req now dayStart (n + 1) db =
        iterateCompleteDB req now dayStart n
          ((completeView db req now dayStart).2) from rfl, hstep, h2]
    cases u
    simp [Nat.add_assoc, Nat.add_comm 1 n]

/-! ### Claim theorems -/

unseal Rat.add in
/-- C1: the three success effects of view completion are NOT applied
atomically. The handler runs the views UPDATE (mark valid and record
points) and the users UPDATE (credit the balance) as two separate
statements with no transaction, so an execution that fails between them
is left with the session of token s1 marked valid carrying one recorded
point while the balance of user 1 still holds its pre-transaction 7
points — a reachable state with a valid session and no matching credit,
and not the pre-transaction state. -/
theorem creditStep_not_atomic_crash_reachable :
    ∃ db1, completeViewCrashMidCredit dbA reqA 30000 0 = some db1 ∧
      (findSession db1 "s1" 1).map (fun v => (v.is_valid, v.points_earned)) =
        some (1, some 1) ∧
      (findUser db1 1).map (fun u => u.points) = some 7 ∧
      db1 ≠ dbA :=
  ⟨markSessionValid dbA "s1" 1 30000, by decide, by decide, by decide,
    by decide⟩

/-- C2: completion consumes a session token exactly once. For a session
already marked valid, a replayed completion that reaches past the proxy
and dwell checks never returns success and leaves the store untouched —
so there is exactly one credit for the token — and when the daily cap and
IP cooldown checks also pass, the rejection is the
session-already-completed error of the replay guard. -/
theorem completeView_replay_exactly_once (db : DB) (req : Request)
    (now dayStart : Int) (v : ViewRow)
    (h1 : isProxy req = false)
    (h4 : findSession db req.sessionId req.userId = some v)
    (h5 : minDwellMs ≤ now - v.start_time)
    (h6 : v.is_valid = 1) :
    (∀ p, (completeView db req now dayStart).1 ≠ CompleteResult.success p) ∧
    (completeView db req now dayStart).2 = db ∧
    (dailyPointsTotal db req.userId dayStart < dailyCapPoints →
      recentIpViewExists db req.ip now = false →
      (completeView db req now dayStart).1 =
        CompleteResult.errAlreadyCompleted) := by
  by_cases h2 : dailyCapPoints ≤ dailyPointsTotal db req.userId dayStart
  · rw [completeView_dailyCap db req now dayStart h1 h2]
    exact ⟨fun p hp => CompleteResult.noConfusion hp, rfl,
      fun h2' _ => absurd h2 (not_le.mpr h2')⟩
  · have h2' := not_le.mp h2
    cases h3 : recentIpViewExists db req.ip now with
    | true =>
      rw [completeView_cooldown db req now dayStart h1 h2' h3]
      exact ⟨fun p hp => CompleteResult.noConfusion hp, rfl,
        fun _ h3' => Bool.noConfusion h3'⟩
    | false =>
      rw [completeView_alreadyCompleted db req now dayStart v h1 h2' h3 h4
        h5 h6]
      exact ⟨fun p hp => CompleteResult.noConfusion hp, rfl, fun _ _ => rfl⟩

unseal Rat.add in
/-- Witness for C2: replaying the completion of the already-valid session
of dbValid is rejected with the session-already-completed error and
changes nothing. -/
theorem completeView_replay_exactly_once_witness :
    (completeView dbValid reqA 700000 0).1 =
      CompleteResult.errAlreadyCompleted ∧
    (completeView dbValid reqA 700000 0).2 = dbValid := by
  have h := completeView_replay_exactly_once dbValid reqA 700000 0 validView
    (by decide) (by decide) (by decide) (by decide)
  exact ⟨h.2.2 (by decide) (by decide), h.2.1⟩

unseal Rat.add in
/-- C3 counterexample: a completion after 19.9 seconds of dwell time is
rejected with the duration-too-short error, but the session does NOT
transition to a terminal rejected state: it stays at is_valid = 0 with
only a fraud reason recorded, and a later completion of the very same
token succeeds and is credited — refuting that such a session can never
be credited. -/
theorem shortDuration_session_recreditable :
    (completeView dbA reqA 19900 0).1 = CompleteResult.errDurationTooShort ∧
    (findSession (completeView dbA reqA 19900 0).2 "s1" 1).map
        (fun v => (v.is_valid, v.fraud_reason)) =
      some (0, some "Duration too short") ∧
    (completeView (completeView dbA reqA 19900 0).2 reqA 30000 0).1 =
      CompleteResult.success 1 :=
  ⟨by decide, by decide, by decide⟩

/-- C3 amended: a completion with dwell time strictly below 20 seconds is
rejected with the duration-too-short error and the fraud reason is
recorded on the session, but the session keeps its identity, owner,
validity state and points — it remains pending and completable — and a
completion with dwell time of 20.0 seconds or more passes the dwell-time
check and is credited when the session is still pending. -/
theorem shortDuration_rejection_nonterminal (db : DB) (req : Request)
    (now dayStart : Int) (v : ViewRow)
    (h1 : isProxy req = false)
    (h2 : dailyPointsTotal db req.userId dayStart < dailyCapPoints)
    (h3 : recentIpViewExists db req.ip now = false)
    (h4 : findSession db req.sessionId req.userId = some v) :
    (now - v.start_time < minDwellMs →
      (completeView db req now dayStart).1 =
        CompleteResult.errDurationTooShort ∧
      (completeView db req now dayStart).2.users = db.users ∧
      (completeView db req now dayStart).2.views.map
          (fun w => (w.session_id, w.viewer_id, w.is_valid, w.points_earned)) =
        db.views.map
          (fun w => (w.session_id, w.viewer_id, w.is_valid, w.points_earned))) ∧
    (minDwellMs ≤ now - v.start_time → v.is_valid ≠ 1 →
      (completeView db req now dayStart).1 =
        CompleteResult.success pointsPerView) := by
  constructor
  · intro h5
    rw [completeView_shortDuration db req now dayStart v h1 h2 h3 h4 h5]
    refine ⟨rfl, rfl, ?_⟩
    show (db.views.map _).map _ = _
    rw [List.map_map]
    have hcomp : ((fun w : ViewRow =>
          (w.session_id, w.viewer_id, w.is_valid, w.points_earned)) ∘
        (fun w => if w.session_id == req.sessionId then
          { w with fraud_reason := some "Duration too short" } else w)) =
        fun w : ViewRow =>
          (w.session_id, w.viewer_id, w.is_valid, w.points_earned) := by
      funext w
      by_cases hw : w.session_id = req.sessionId <;> simp [hw]
    rw [hcomp]
  · intro h5 h6
    rw [completeView_credit db req now dayStart v h1 h2 h3 h4 h5 h6]

unseal Rat.add in
/-- Witness for the amended C3: the concrete 19.9-second completion is
rejected with the duration-too-short error. -/
theorem shortDuration_rejection_nonterminal_witness :
    (completeView dbA reqA 19900 0).1 =
      CompleteResult.errDurationTooShort := by
  have h := shortDuration_rejection_nonterminal dbA reqA 19900 0 pendingView
    (by decide) (by decide) (by decide) (by decide)
  exact (h.1 (by decide)).1

/-- C4: the fraud checks run in the fixed order proxy heuristic, daily
cap, IP cooldown, session existence and ownership, minimum dwell time,
replay guard, short-circuiting on the first failure: in each case the
response is the error of the earliest failing check and the post state
carries exactly that branch effect (the fraud-flag bump for the proxy
branch, the fraud-reason note for the dwell branch, and no change at
all for the others). -/
theorem completeView_check_order (db : DB) (req : Request)
    (now dayStart : Int) :
    (isProxy req = true →
      completeView db req now dayStart =
        (CompleteResult.errProxy, bumpFraudFlags db req.userId)) ∧
    (isProxy req = false →
      dailyCapPoints ≤ dailyPointsTotal db req.userId dayStart →
      completeView db req now dayStart = (CompleteResult.errDailyCap, db)) ∧
    (isProxy req = false →
      dailyPointsTotal db req.userId dayStart < dailyCapPoints →
      recentIpViewExists db req.ip now = true →
      completeView db req now dayStart = (CompleteResult.errCooldown, db)) ∧
    (isProxy req = false →
      dailyPointsTotal db req.userId dayStart < dailyCapPoints →
      recentIpViewExists db req.ip now = false →
      findSession db req.sessionId req.userId = none →
      completeView db req now dayStart =
        (CompleteResult.errInvalidSession, db)) ∧
    (∀ v, isProxy req = false →
      dailyPointsTotal db req.userId dayStart < dailyCapPoints →
      recentIpViewExists db req.ip now = false →
      findSession db req.sessionId req.userId = some v →
      now - v.start_time < minDwellMs →
      completeView db req now dayStart =
        (CompleteResult.errDurationTooShort,
          setFraudReason db req.sessionId)) ∧
    (∀ v, isProxy req = false →
      dailyPointsTotal db req.userId dayStart < dailyCapPoints →
      recentIpViewExists db req.ip now = false →
      findSession db req.sessionId req.userId = some v →
      minDwellMs ≤ now - v.start_time →
      v.is_valid = 1 →
      completeView db req now dayStart =
        (CompleteResult.errAlreadyCompleted, db)) :=
  ⟨fun h1 => completeView_proxy db req now dayStart h1,
    fun h1 h2 => completeView_dailyCap db req now dayStart h1 h2,
    fun h1 h2 h3 => completeView_cooldown db req now dayStart h1 h2 h3,
    fun h1 h2 h3 h4 =>
      completeView_invalidSession db req now dayStart h1 h2 h3 h4,
    fun v h1 h2 h3 h4 h5 =>
      completeView_shortDuration db req now dayStart v h1 h2 h3 h4 h5,
    fun v h1 h2 h3 h4 h5 h6 =>
      completeView_alreadyCompleted db req now dayStart v h1 h2 h3 h4 h5 h6⟩

unseal Rat.add in
/-- Witness for C4: on a store whose cooldown window is occupied, a
non-proxied under-cap completion is rejected by the cooldown check with
no state change. -/
theorem completeView_check_order_witness :
    completeView dbCooldown reqA 700000 0 =
      (CompleteResult.errCooldown, dbCooldown) := by
  have h := completeView_check_order dbCooldown reqA 700000 0
  exact h.2.2.1 (by decide) (by decide) (by decide)

/-- C5: for a request that passes the proxy and daily-cap checks, the
completion is rejected with the IP-cooldown error exactly when some view
from the same IP address is recorded valid with a completion timestamp
inside the preceding 10 minutes — pending or rejected rows (is_valid not
1) never occupy the window — and whenever such a valid view at time T
exists with now earlier than T plus 10 minutes, no completion attempt
from that IP can succeed. -/
theorem ipCooldown_iff_recent_valid_view (db : DB) (req : Request)
    (now dayStart : Int) :
    ((completeView db req now dayStart).1 = CompleteResult.errCooldown ↔
      isProxy req = false ∧
      dailyPointsTotal db req.userId dayStart < dailyCapPoints ∧
      ∃ v ∈ db.views, v.ip_address = req.ip ∧ v.is_valid = 1 ∧
        now < v.viewed_at + 600000) ∧
    (∀ v ∈ db.views, v.ip_address = req.ip → v.is_valid = 1 →
      now < v.viewed_at + 600000 →
      ∀ p, (completeView db req now dayStart).1 ≠
        CompleteResult.success p) := by
  have hex : recentIpViewExists db req.ip now = true ↔
      ∃ v ∈ db.views, v.ip_address = req.ip ∧ v.is_valid = 1 ∧
        now < v.viewed_at + 600000 := by
    rw [recentIpViewExists_iff]
    constructor
    · rintro ⟨v, hv, hip, ht, hval⟩
      exact ⟨v, hv, hip, hval, by omega⟩
    · rintro ⟨v, hv, hip, hval, ht⟩
      exact ⟨v, hv, hip, by omega, hval⟩
  constructor
  · rw [(completeView_fst_spec db req now dayStart).2, hex]
  · intro v hv hip hval ht p hp
    have htrue : recentIpViewExists db req.ip now = true :=
      hex.mpr ⟨v, hv, hip, hval, ht⟩
    cases h1 : isProxy req with
    | true =>
      rw [completeView_proxy db req now dayStart h1] at hp
      exact CompleteResult.noConfusion hp
    | false =>
      by_cases h2 : dailyCapPoints ≤ dailyPointsTotal db req.userId dayStart
      · rw [completeView_dailyCap db req now dayStart h1 h2] at hp
        exact CompleteResult.noConfusion hp
      · rw [completeView_cooldown db req now dayStart h1 (not_le.mp h2)
          htrue] at hp
        exact CompleteResult.noConfusion hp

unseal Rat.add in
/-- Witness for C5: with a valid view on the request IP completed 50
seconds ago, the completion at 700 seconds is rejected with the
IP-cooldown error. -/
theorem ipCooldown_iff_recent_valid_view_witness :
    (completeView dbCooldown reqA 700000 0).1 =
      CompleteResult.errCooldown := by
  have h := ipCooldown_iff_recent_valid_view dbCooldown reqA 700000 0
  exact h.1.mpr ⟨by decide, by decide,
    recentValidView, by decide, by decide, by decide, by decide⟩

unseal Rat.add in
/-- C6: for a request that passes the proxy check, the daily-cap check
rejects exactly when the credited daily total of the user has reached
100000 points — so it passes exactly when the total is below 100000 —
and concretely: with a daily credited total of 99999.5 points a 1-point
completion succeeds, the total becomes 100000.5, and a further completion
attempt by that user the same day is rejected with the daily-cap
error. -/
theorem dailyCap_check_characterisation :
    (∀ (db : DB) (req : Request) (now dayStart : Int),
      ((completeView db req now dayStart).1 = CompleteResult.errDailyCap ↔
        isProxy req = false ∧
          dailyCapPoints ≤ dailyPointsTotal db req.userId dayStart)) ∧
    dailyPointsTotal dbCap 1 0 = mkRat 199999 2 ∧
    (completeView dbCap reqCap 700000 0).1 = CompleteResult.success 1 ∧
    dailyPointsTotal (completeView dbCap reqCap 700000 0).2 1 0 =
      mkRat 200001 2 ∧
    (completeView (completeView dbCap reqCap 700000 0).2 reqCap
      710000 0).1 = CompleteResult.errDailyCap :=
  ⟨fun db req now dayStart => (completeView_fst_spec db req now dayStart).1,
    by decide, by decide, by decide, by decide⟩

unseal Rat.add in
/-- C7: the referral bonus is NOT granted atomically or retry-safely. The
handler inserts the referred user (already holding the 50-point bonus)
and only then, in a separate statement outside any transaction, credits
the referrer; an execution that fails between the two leaves the new
user credited and the referrer at 0, and retrying the registration hits
the username/email UNIQUE constraint and mutates nothing, so the referrer
permanently misses the bonus. The non-crashing run is also evaluated:
it credits exactly 50 points to each party. -/
theorem referralBonus_not_atomic_crash_retry :
    ∃ db1, registerCrashAfterInsert dbRef inpRef = some db1 ∧
      (findUser db1 2).map (fun u => u.points) = some 50 ∧
      (findUser db1 1).map (fun u => u.points) = some 0 ∧
      register db1 inpRef = (RegisterResult.errUniqueConstraint, db1) ∧
      (register dbRef inpRef).2.users.map (fun u => u.points) = [50, 50] :=
  ⟨{ users := [refUser,
      { id := 2, username := "newbie", email := "newbie@example.com",
        password := "pw", points := 50, referral_code := "XYZ789",
        referred_by := some 1, fraud_flags := 0,
        last_earning_at := none }], views := [] },
    by decide, by decide, by decide, by decide, by decide⟩

/-- C8: frame effects of the four early rejections. A proxy rejection
leaves the views table untouched and the points of every user unchanged,
and changes exactly the fraud-flag counter of the requesting user, by
one; daily-cap, IP-cooldown and invalid-session rejections return the
store exactly as it was, so the session stays pending and completable
with the same token. -/
theorem rejection_frame_effects (db : DB) (req : Request)
    (now dayStart : Int) :
    (isProxy req = true →
      (completeView db req now dayStart).1 = CompleteResult.errProxy ∧
      (completeView db req now dayStart).2.views = db.views ∧
      (completeView db req now dayStart).2.users.map (fun u => u.points) =
        db.users.map (fun u => u.points) ∧
      (completeView db req now dayStart).2.users.map
          (fun u => u.fraud_flags) =
        db.users.map (fun u =>
          if u.id = req.userId then u.fraud_flags + 1 else u.fraud_flags)) ∧
    (isProxy req = false →
      dailyCapPoints ≤ dailyPointsTotal db req.userId dayStart →
      (completeView db req now dayStart).1 = CompleteResult.errDailyCap ∧
      (completeView db req now dayStart).2 = db) ∧
    (isProxy req = false →
      dailyPointsTotal db req.userId dayStart < dailyCapPoints →
      recentIpViewExists db req.ip now = true →
      (completeView db req now dayStart).1 = CompleteResult.errCooldown ∧
      (completeView db req now dayStart).2 = db) ∧
    (isProxy req = false →
      dailyPointsTotal db req.userId dayStart < dailyCapPoints →
      recentIpViewExists db req.ip now = false →
      findSession db req.sessionId req.userId = none →
      (completeView db req now dayStart).1 =
        CompleteResult.errInvalidSession ∧
      (completeView db req now dayStart).2 = db) := by
  refine ⟨?_, ?_, ?_, ?_⟩
  · intro h1
    rw [completeView_proxy db req now dayStart h1]
    refine ⟨rfl, rfl, ?_, ?_⟩
    · show ((db.users.map _).map _ : List ℚ) = _
      rw [List.map_map]
      have hcomp : ((fun u : UserRow => u.points) ∘
          (fun u => if u.id == req.userId then
            { u with fraud_flags := u.fraud_flags + 1 } else u)) =
          fun u : UserRow => u.points := by
        funext u
        by_cases hu : u.id = req.userId <;> simp [hu]
      rw [hcomp]
    · show ((db.users.map _).map _ : List Nat) = _
      rw [List.map_map]
      have hcomp : ((fun u : UserRow => u.fraud_flags) ∘
          (fun u => if u.id == req.userId then
            { u with fraud_flags := u.fraud_flags + 1 } else u)) =
          fun u : UserRow =>
            if u.id = req.userId then u.fraud_flags + 1
            else u.fraud_flags := by
        funext u
        by_cases hu : u.id = req.userId <;> simp [hu]
      rw [hcomp]
  · intro h1 h2
    rw [completeView_dailyCap db req now dayStart h1 h2]
    exact ⟨rfl, rfl⟩
  · intro h1 h2 h3
    rw [completeView_cooldown db req now dayStart h1 h2 h3]
    exact ⟨rfl, rfl⟩
  · intro h1 h2 h3 h4
    rw [completeView_invalidSession db req now dayStart h1 h2 h3 h4]
    exact ⟨rfl, rfl⟩

/-- Witness for C8: the proxied request against dbA is rejected with the
proxy error, the views table is untouched, and the fraud-flag column
goes from 0 to 1 for the requesting user. -/
theorem rejection_frame_effects_witness :
    (completeView dbA reqProxy 30000 0).1 = CompleteResult.errProxy ∧
    (completeView dbA reqProxy 30000 0).2.views = dbA.views ∧
    (completeView dbA reqProxy 30000 0).2.users.map
      (fun u => u.fraud_flags) = [1] := by
  have h := (rejection_frame_effects dbA reqProxy 30000 0).1 (by decide)
  refine ⟨h.1, h.2.1, ?_⟩
  rw [h.2.2.2]
  decide

/-- C9: lockEarnings creates a ledger entry with status locked and an
unlock timestamp equal to creation time plus the 15-day holding period;
a scheduler sweep never rewrites unlock timestamps, transitions an entry
to available exactly when it is locked and due, leaves every other entry
(not locked, or not yet due) untouched, and re-running the sweep is
idempotent, so an already-available entry is never re-transitioned. -/
theorem earnings_lock_and_unlock_scheduler :
    (∀ (es : List EarningsLedgerEntry) (u : Nat) (a : ℚ) (s : String)
        (now : Int),
      (lockEarnings es u a s now).1.status = EarnStatus.locked ∧
      (lockEarnings es u a s now).1.unlock_at = now + holdingPeriodMs ∧
      (lockEarnings es u a s now).2 = es ++ [(lockEarnings es u a s now).1]) ∧
    (∀ (now : Int) (es : List EarningsLedgerEntry),
      (unlockSweep now es).map (fun e => e.unlock_at) =
        es.map (fun e => e.unlock_at)) ∧
    (∀ (now : Int) (e : EarningsLedgerEntry),
      e.status = EarnStatus.locked → e.unlock_at ≤ now →
      sweepEntry now e = { e with status := EarnStatus.available }) ∧
    (∀ (now : Int) (e : EarningsLedgerEntry),
      e.status = EarnStatus.locked → now < e.unlock_at →
      sweepEntry now e = e) ∧
    (∀ (now : Int) (e : EarningsLedgerEntry),
      e.status ≠ EarnStatus.locked → sweepEntry now e = e) ∧
    (∀ (now : Int) (es : List EarningsLedgerEntry),
      unlockSweep now (unlockSweep now es) = unlockSweep now es) := by
  refine ⟨fun es u a s now => ⟨rfl, rfl, rfl⟩, ?_, ?_, ?_, ?_, ?_⟩
  · intro now es
    rw [unlockSweep, List.map_map]
    have hcomp : ((fun e : EarningsLedgerEntry => e.unlock_at) ∘
        sweepEntry now) = fun e : EarningsLedgerEntry => e.unlock_at := by
      funext e
      exact sweepEntry_unlock_at now e
    rw [hcomp]
  · exact fun now e h1 h2 => sweepEntry_due now e h1 h2
  · intro now e h1 h2
    exact sweepEntry_unchanged now e (fun hc => absurd hc.2 (not_le.mpr h2))
  · intro now e h
    exact sweepEntry_unchanged now e (fun hc => h hc.1)
  · intro now es
    rw [unlockSweep, unlockSweep, List.map_map]
    have hcomp : (sweepEntry now ∘ sweepEntry now) = sweepEntry now := by
      funext e
      exact sweepEntry_idem now e
    rw [hcomp]

/-- Witness for C9: the concrete due locked entry transitions to
available, and sweeping its singleton ledger twice equals sweeping it
once. -/
theorem earnings_lock_and_unlock_scheduler_witness :
    sweepEntry 100 lockedEntry =
      { lockedEntry with status := EarnStatus.available } ∧
    (lockEarnings [] 1 5 "bonus" 0).1.unlock_at = holdingPeriodMs := by
  have h := earnings_lock_and_unlock_scheduler
  exact ⟨h.2.2.1 100 lockedEntry (by decide) (by decide),
    (h.1 [] 1 5 "bonus" 0).2.1⟩

/-- C10: the proxy check runs before the session token is ever looked up:
for every store and every proxied request — with no assumption at all on
the supplied session token, which may match no session, belong to another
user, or be already completed — the handler rejects with the proxy error,
leaves the views table untouched, increments the fraud-flag counter of
the requesting user by one, and n such requests raise it by n. -/
theorem proxy_check_before_session_lookup (db : DB) (req : Request)
    (now dayStart : Int) (h : isProxy req = true) :
    (completeView db req now dayStart).1 = CompleteResult.errProxy ∧
    (completeView db req now dayStart).2.views = db.views ∧
    (∀ u, findUser db req.userId = some u →
      findUser (completeView db req now dayStart).2 req.userId =
        some { u with fraud_flags := u.fraud_flags + 1 }) ∧
    (∀ (n : Nat) (u : UserRow), findUser db req.userId = some u →
      findUser (iterateCompleteDB req now dayStart n db) req.userId =
        some { u with fraud_flags := u.fraud_flags + n }) := by
  refine ⟨?_, ?_, ?_, ?_⟩
  · rw [completeView_proxy db req now dayStart h]
  · rw [completeView_proxy db req now dayStart h]
    rfl
  · intro u hu
    rw [completeView_proxy db req now dayStart h]
    show findUser (bumpFraudFlags db req.userId) req.userId = _
    rw [findUser_bumpFraudFlags, hu]
    rfl
  · exact fun n u hu => iterate_proxy_fraud_flags req now dayStart h n db u hu

/-- Witness for C10: three proxied completions against dbA — whose only
session is pending and owned by the requester, with the token immaterial
— drive the fraud-flag counter of user 1 from 0 to 3. -/
theorem proxy_check_before_session_lookup_witness :
    findUser (iterateCompleteDB reqProxy 30000 0 3 dbA) 1 =
      some { userA with fraud_flags := userA.fraud_flags + 3 } := by
  have h := proxy_check_before_session_lookup dbA reqProxy 30000 0 (by decide)
  exact h.2.2.2 3 userA (by decide)

end Afritraffic
